import Mathlib

/-!
Shallow embedding of the Tahoe-LAFS HTTP storage client
(`src/allmydata/storage/http_client.py`) and of the deterministic peer
permutation exercised by `src/allmydata/test/test_client.py`.

Byte strings are modelled as `List Nat`, HTTP headers as name/value pairs,
and each client operation is split into the pure function that builds the
outgoing request and the pure function that maps the server's response to
the operation's result (success value or `ClientException`).
-/

/-- Byte strings (Python `bytes`) modelled as lists of naturals. -/
abbrev Bytes := List Nat

/-- The standard base64 alphabet, as used by Python's `base64.b64encode`. -/
def base64Alphabet : List Char :=
  "ABCDEFGHIJKLMNOPQRSTUVWXYZabcdefghijklmnopqrstuvwxyz0123456789+/".data

/-- Character of the base64 alphabet at index `n` (n < 64). -/
def b64Char (n : Nat) : Char := base64Alphabet.getD n '?'

/-- Base64 encoding of a byte string, with `=` padding, as produced by
Python's `base64.b64encode` (already stripped: no trailing newline). -/
def b64encode : Bytes → String
  | [] => ""
  | [a] =>
    let g := a % 256 * 65536
    String.mk [b64Char (g / 262144 % 64), b64Char (g / 4096 % 64)] ++ "=="
  | [a, b] =>
    let g := a % 256 * 65536 + b % 256 * 256
    String.mk [b64Char (g / 262144 % 64), b64Char (g / 4096 % 64),
               b64Char (g / 64 % 64)] ++ "="
  | a :: b :: c :: rest =>
    let g := a % 256 * 65536 + b % 256 * 256 + c % 256
    String.mk [b64Char (g / 262144 % 64), b64Char (g / 4096 % 64),
               b64Char (g / 64 % 64), b64Char (g % 64)] ++ b64encode rest

/-- An HTTP header: raw name and raw value. `addRawHeader` appends. -/
structure HttpHeader where
  name : String
  value : String
  deriving DecidableEq, Repr

/-- Modelled from the spec: the `Secrets` role enumeration from
`allmydata.storage.http_common` (that module is not under `src/`); each
secret role carries a tag used in the `X-Tahoe-Authorization` header. -/
inductive Secrets where
  | lease_renew
  | lease_cancel
  | upload
  deriving DecidableEq, Repr

/-- Modelled from the spec: the role tag (`Secrets.value` in the source)
naming which secret role a header fulfils: renewal / cancellation / upload. -/
def Secrets.value : Secrets → String
  | .lease_renew => "lease-renew-secret"
  | .lease_cancel => "lease-cancel-secret"
  | .upload => "upload-secret"

/-- Modelled from the spec: `swissnum_auth_header` from
`allmydata.storage.http_common` (not under `src/`): the fixed bearer
authorization value derived from the shared swiss number, base64-armored. -/
def swissnum_auth_header (swissnum : Bytes) : String :=
  "Tahoe-LAFS " ++ b64encode swissnum

/-- Modelled from the spec: `si_b2a` (the ASCII-safe textual encoding of a
raw storage index, from `allmydata.storage.common`, not under `src/`); any
fixed injective ASCII rendering realises the contract. -/
def encode_si (si : Bytes) : String :=
  String.intercalate "-" (si.map (fun b => toString b))

/-- Bodies attached to outgoing requests: nothing, raw chunk bytes, or the
CBOR-encoded create message `{share-numbers, allocated-size}`. -/
inductive RequestBody where
  | empty
  | raw (data : Bytes)
  | cborCreate (shareNumbers : List Nat) (allocatedSize : Nat)
  deriving DecidableEq, Repr

/-- An outgoing HTTP request as handed to `treq.request`. -/
structure Request where
  method : String
  url : String
  headers : List HttpHeader
  body : RequestBody
  deriving DecidableEq, Repr

/-- Python's `str.startswith` on text, used by the constructor's assert. -/
def startsWithText (s pre : String) : Bool :=
  pre.data.isPrefixOf s.data

/-- `StorageClient`: base URL plus swiss number (the treq handle is ambient
I/O and is not part of the pure model). -/
structure StorageClient where
  base_url : String
  swissnum : Bytes
  deriving DecidableEq, Repr

/-- `StorageClient.__init__`: the constructor asserts that the URL text
starts with `"https://"`; a failing assert means no instance is produced. -/
def StorageClient.init (url : String) (swissnum : Bytes) : Option StorageClient :=
  if startsWithText url "https://" then some ⟨url, swissnum⟩ else none

/-- Failure modes of `StorageClient.from_furl`: a failed `assert`, or the
`IndexError` from `furl.path[0]` on an empty path. -/
inductive FromFurlError where
  | assertionFailed
  | indexError
  deriving DecidableEq, Repr

/-- A furl as consumed by `StorageClient.from_furl`: scheme, fragment,
path segments and user info of the parsed `DecodedURL`. -/
structure Furl where
  scheme : String
  fragment : String
  path : List String
  user : String
  deriving DecidableEq, Repr

/-- `StorageClient.from_furl`: asserts `fragment == "v=1"` and
`scheme == "pb"`, extracts `furl.path[0]` as the swissnum and `furl.user`
as the certificate hash, then falls off the end of the function body —
Python therefore returns `None`, never a `StorageClient`. -/
def StorageClient.from_furl (furl : Furl) :
    Except FromFurlError (Option StorageClient) :=
  if furl.fragment = "v=1" then
    if furl.scheme = "pb" then
      match furl.path.head? with
      | some p0 =>
        let swissnum := p0
        let certificate_hash := furl.user
        Except.ok none
      | none => Except.error FromFurlError.indexError
    else Except.error FromFurlError.assertionFailed
  else Except.error FromFurlError.assertionFailed

/-- `StorageClient._url`: a URL relative to the base URL (`DecodedURL.click`
with an absolute path appends the path below the authority). -/
def StorageClient.url (c : StorageClient) (path : String) : String :=
  c.base_url ++ path

/-- `StorageClient._get_headers`: the supplied headers (fresh when absent)
with the swissnum bearer `Authorization` header appended. -/
def StorageClient.get_headers (c : StorageClient) (headers : List HttpHeader) :
    List HttpHeader :=
  headers ++ [⟨"Authorization", swissnum_auth_header c.swissnum⟩]

/-- One loop step of `StorageClient._request`: a supplied secret appends an
`X-Tahoe-Authorization` header `b"%s %s" % (tag, b64encode(value))`;
an absent secret contributes nothing. -/
def addSecretHeader (hs : List HttpHeader) (p : Secrets × Option Bytes) :
    List HttpHeader :=
  match p.2 with
  | none => hs
  | some v => hs ++ [⟨"X-Tahoe-Authorization", p.1.value ++ " " ++ b64encode v⟩]

/-- `StorageClient._request`: basic headers plus one secret header per
supplied secret, in the fixed order renew, cancel, upload; the resulting
request is handed to `treq.request`. -/
def StorageClient.request (c : StorageClient) (method url : String)
    (lease_renew_secret lease_cancel_secret upload_secret : Option Bytes)
    (headers : List HttpHeader) (body : RequestBody) : Request :=
  let hs := c.get_headers headers
  let hs := [(Secrets.lease_renew, lease_renew_secret),
             (Secrets.lease_cancel, lease_cancel_secret),
             (Secrets.upload, upload_secret)].foldl addSecretHeader hs
  ⟨method, url, hs, body⟩

/-- `ClientException(code, ...)`: the unexpected-response error. -/
structure ClientException where
  code : Nat
  deriving DecidableEq, Repr

/-- `RangeMap` from `collections_extended`, restricted to how the client
uses it: the ranges on which `set(True, begin, end)` was called, with
point-membership as the observable semantics. -/
structure RangeMap where
  ranges : List (Nat × Nat)
  deriving DecidableEq, Repr

/-- `RangeMap.set(True, b, e)`: record the half-open range `[b, e)`. -/
def RangeMap.set (m : RangeMap) (b e : Nat) : RangeMap :=
  ⟨m.ranges ++ [(b, e)]⟩

/-- Point membership in a `RangeMap`: `x` lies in some recorded range. -/
def RangeMap.containsPoint (m : RangeMap) (x : Nat) : Bool :=
  m.ranges.any fun p => decide (p.1 ≤ x) && decide (x < p.2)

/-- `UploadProgress`: progress of an immutable upload, per the server. -/
structure UploadProgress where
  finished : Bool
  required : RangeMap
  deriving DecidableEq, Repr

/-- One entry of the `required` field of a chunk-write response body:
a half-open byte range `{begin, end}` still needed by the server. -/
structure RequiredRange where
  rangeBegin : Nat
  rangeEnd : Nat
  deriving DecidableEq, Repr

/-- The `remaining` RangeMap built by `write_share_chunk` from the decoded
response body: `set(True, begin, end)` for each listed required range. -/
def requiredRanges (required : List RequiredRange) : RangeMap :=
  required.foldl (fun m r => RangeMap.set m r.rangeBegin r.rangeEnd) ⟨[]⟩

/-- Server response to a chunk write: status code plus the decoded CBOR
body's `required` field. -/
structure WriteResponse where
  code : Nat
  required : List RequiredRange
  deriving DecidableEq, Repr

/-- The werkzeug `ContentRange("bytes", start, stop).to_header()` value. -/
def contentRangeHeader (start stop : Nat) : String :=
  "bytes " ++ toString start ++ "-" ++ toString (stop - 1) ++ "/*"

/-- The werkzeug `Range("bytes", [(start, stop)]).to_header()` value. -/
def rangeHeader (start stop : Nat) : String :=
  "bytes=" ++ toString start ++ "-" ++ toString (stop - 1)

/-- The request issued by `StorageClientImmutables.write_share_chunk`:
PATCH to `/v1/immutable/{storage_index}/{share_number}` carrying the upload
secret, the raw chunk bytes and a content-range header. -/
def write_share_chunk_request (c : StorageClient) (storage_index : Bytes)
    (share_number : Nat) (upload_secret : Bytes) (offset : Nat)
    (data : Bytes) : Request :=
  c.request "PATCH"
    (c.url ("/v1/immutable/" ++ encode_si storage_index ++ "/" ++
      toString share_number))
    none none (some upload_secret)
    [⟨"content-range", contentRangeHeader offset (offset + data.length)⟩]
    (RequestBody.raw data)

/-- Response processing of `StorageClientImmutables.write_share_chunk`:
`http.OK` (200) means the upload is still unfinished, `http.CREATED` (201)
means it is done, anything else raises `ClientException`; on success the
decoded body's `required` ranges populate the returned `UploadProgress`. -/
def write_share_chunk (response : WriteResponse) :
    Except ClientException UploadProgress :=
  if response.code = 200 then
    Except.ok ⟨false, requiredRanges response.required⟩
  else if response.code = 201 then
    Except.ok ⟨true, requiredRanges response.required⟩
  else
    Except.error ⟨response.code⟩

/-- The caller-visible effect of one `write_share_chunk` call on the
`UploadProgress` value the caller holds for that share: the deferred fires
with a fresh `UploadProgress` only on success; on failure the exception
propagates before `returnValue`, so the caller's held value is untouched. -/
def applyWriteResult (st : Option UploadProgress)
    (r : Except ClientException UploadProgress) : Option UploadProgress :=
  match r with
  | Except.error _ => st
  | Except.ok p => some p

/-- Server response to a ranged read: status code and raw body bytes. -/
structure ReadResponse where
  code : Nat
  body : Bytes
  deriving DecidableEq, Repr

/-- The request issued by `StorageClientImmutables.read_share_chunk`: GET
to `/v1/immutable/{storage_index}/{share_number}` with a range header and
no secrets. -/
def read_share_chunk_request (c : StorageClient) (storage_index : Bytes)
    (share_number : Nat) (offset length : Nat) : Request :=
  c.request "GET"
    (c.url ("/v1/immutable/" ++ encode_si storage_index ++ "/" ++
      toString share_number))
    none none none
    [⟨"range", rangeHeader offset (offset + length)⟩]
    RequestBody.empty

/-- Response processing of `StorageClientImmutables.read_share_chunk`: on
`http.PARTIAL_CONTENT` (206) the body bytes are returned as they are (the
requested `offset` and `length` are not consulted again); any other status
raises `ClientException`. -/
def read_share_chunk (offset length : Nat) (response : ReadResponse) :
    Except ClientException Bytes :=
  if response.code = 206 then
    Except.ok response.body
  else
    Except.error ⟨response.code⟩

/-- Server response to `list_shares`: status code and the decoded CBOR
body, a list of share numbers. -/
structure SharesResponse where
  code : Nat
  shares : List Nat
  deriving DecidableEq, Repr

/-- The request issued by `StorageClientImmutables.list_shares`: GET to
`/v1/immutable/{storage_index}/shares` with no secrets. -/
def list_shares_request (c : StorageClient) (storage_index : Bytes) : Request :=
  c.request "GET"
    (c.url ("/v1/immutable/" ++ encode_si storage_index ++ "/shares"))
    none none none [] RequestBody.empty

/-- Response processing of `StorageClientImmutables.list_shares`: only
`http.OK` (200) yields `set(body)`; any other status raises
`ClientException`. -/
def list_shares (response : SharesResponse) :
    Except ClientException (Finset Nat) :=
  if response.code = 200 then
    Except.ok response.shares.toFinset
  else
    Except.error ⟨response.code⟩

/-- The `_decode_cbor` success gate: `199 < code < 300`. -/
def decode_cbor_ok (code : Nat) : Bool :=
  decide (199 < code) && decide (code < 300)

/-- `ImmutableCreateResult`: the `already_have` / `allocated` share sets
reported by the server on creation. -/
structure ImmutableCreateResult where
  already_have : List Nat
  allocated : List Nat
  deriving DecidableEq, Repr

/-- Server response to `create`: status code and the decoded CBOR body's
`already-have` and `allocated` fields. -/
structure CreateResponse where
  code : Nat
  alreadyHave : List Nat
  allocated : List Nat
  deriving DecidableEq, Repr

/-- The request issued by `StorageClientImmutables.create`: POST to
`/v1/immutable/{storage_index}` carrying all three secrets and the CBOR
message `{share-numbers, allocated-size}`. -/
def create_request (c : StorageClient) (storage_index : Bytes)
    (share_numbers : List Nat) (allocated_size : Nat)
    (upload_secret lease_renew_secret lease_cancel_secret : Bytes) : Request :=
  c.request "POST"
    (c.url ("/v1/immutable/" ++ encode_si storage_index))
    (some lease_renew_secret) (some lease_cancel_secret) (some upload_secret)
    [⟨"content-type", "application/cbor"⟩]
    (RequestBody.cborCreate share_numbers allocated_size)

/-- Response processing of `StorageClientImmutables.create`: `_decode_cbor`
succeeds on any 2xx status, and the result copies the body's `already-have`
and `allocated` fields; any other status fails with `ClientException`. -/
def create (response : CreateResponse) :
    Except ClientException ImmutableCreateResult :=
  if decode_cbor_ok response.code then
    Except.ok ⟨response.alreadyHave, response.allocated⟩
  else
    Except.error ⟨response.code⟩

/-- Modelled from the spec: the peer-permutation score of
`Client.get_permuted_peers` (in `allmydata/client.py`, not under `src/`;
only its test is in `src/`): a fixed, well-distributed hash combining the
storage index with the candidate's identity. Identities are modelled as
naturals; any fixed deterministic mixing function realises the contract. -/
def permuteScore (storage_index : Bytes) (peerid : Nat) : Nat :=
  (storage_index ++ [peerid]).foldl (fun h b => (h * 31 + b) % 1000003) 7

/-- Modelled from the spec: the total order used to rank candidates —
ascending by score, ties broken by comparing the raw identities. -/
def peerOrder (storage_index : Bytes) (a b : Nat) : Prop :=
  permuteScore storage_index a < permuteScore storage_index b ∨
    (permuteScore storage_index a = permuteScore storage_index b ∧ a ≤ b)

instance (si : Bytes) : DecidableRel (peerOrder si) := fun a b => by
  unfold peerOrder
  exact inferInstance

instance (si : Bytes) : IsTrans Nat (peerOrder si) :=
  ⟨by intro a b c hab hbc; unfold peerOrder at hab hbc ⊢; omega⟩

instance (si : Bytes) : IsTotal Nat (peerOrder si) :=
  ⟨by intro a b; unfold peerOrder; omega⟩

instance (si : Bytes) : IsAntisymm Nat (peerOrder si) :=
  ⟨by intro a b hab hba; unfold peerOrder at hab hba; omega⟩

/-- Modelled from the spec: `rank(storage_index, candidates)` — sort the
candidate identities by the permutation order for this storage index. -/
def rank (storage_index : Bytes) (candidates : List Nat) : List Nat :=
  List.insertionSort (peerOrder storage_index) candidates

theorem foldl_set_eq (l : List RequiredRange) (acc : RangeMap) :
    List.foldl (fun m r => RangeMap.set m r.rangeBegin r.rangeEnd) acc l =
      ⟨acc.ranges ++ l.map (fun r => (r.rangeBegin, r.rangeEnd))⟩ := by
  induction l generalizing acc with
  | nil => cases acc; simp
  | cons r t ih =>
    rw [List.foldl_cons, ih]
    simp [RangeMap.set, List.append_assoc]

theorem requiredRanges_containsPoint (l : List RequiredRange) (x : Nat) :
    RangeMap.containsPoint (requiredRanges l) x =
      l.any (fun r => decide (r.rangeBegin ≤ x) && decide (x < r.rangeEnd)) := by
  unfold requiredRanges
  rw [foldl_set_eq]
  simp only [RangeMap.containsPoint, List.nil_append]
  induction l with
  | nil => rfl
  | cons r t ih => simp [ih]

theorem request_headers_eq (c : StorageClient) (method url : String)
    (rs cs us : Option Bytes) (headers : List HttpHeader) (body : RequestBody) :
    (c.request method url rs cs us headers body).headers =
      headers ++ [⟨"Authorization", swissnum_auth_header c.swissnum⟩] ++
        List.filterMap (fun p : Secrets × Option Bytes => p.2.map fun v =>
            ⟨"X-Tahoe-Authorization", p.1.value ++ " " ++ b64encode v⟩)
          [(Secrets.lease_renew, rs), (Secrets.lease_cancel, cs),
           (Secrets.upload, us)] := by
  rcases rs with _ | r <;> rcases cs with _ | cv <;> rcases us with _ | u <;>
    simp [StorageClient.request, StorageClient.get_headers, addSecretHeader,
      List.filterMap]

/-- Claim C1, counterexample: a partial-content (206) response whose body
has only 5 bytes, answering a read of 10 bytes at offset 10, is returned
as data by `read_share_chunk` — the code never validates the returned
length or range, contrary to the claim that a mismatch fails the call. -/
theorem read_share_chunk_returns_unvalidated_body :
    read_share_chunk 10 10 ⟨206, [1, 2, 3, 4, 5]⟩ =
      Except.ok [1, 2, 3, 4, 5] ∧
    ([1, 2, 3, 4, 5] : Bytes).length ≠ 10 :=
  ⟨rfl, by decide⟩

/-- Claim C1, amended: `read_share_chunk` returns the response body as-is
on a 206 status, without validating its length or range against the
request; any other status fails with `ClientException`. -/
theorem read_share_chunk_status_spec (offset length : Nat)
    (response : ReadResponse) :
    (response.code = 206 →
      read_share_chunk offset length response = Except.ok response.body) ∧
    (response.code ≠ 206 →
      read_share_chunk offset length response =
        Except.error ⟨response.code⟩) := by
  constructor <;> intro h <;> simp [read_share_chunk, h]

/-- Witness for the amended C1 at concrete 206 and 404 responses. -/
theorem read_share_chunk_status_spec_witness :
    read_share_chunk 0 1 ⟨206, [9]⟩ = Except.ok [9] ∧
    read_share_chunk 0 1 ⟨404, []⟩ = Except.error ⟨404⟩ :=
  ⟨(read_share_chunk_status_spec 0 1 ⟨206, [9]⟩).1 rfl,
   (read_share_chunk_status_spec 0 1 ⟨404, []⟩).2 (by decide)⟩

/-- Claim C2: `write_share_chunk` maps a 200 response to an unfinished
`UploadProgress`, a 201 response to a finished one, fails with
`ClientException` on any other status, and on success the returned
`required` map contains exactly the points of the half-open ranges
`[begin, end)` listed in the response body. -/
theorem write_share_chunk_spec (response : WriteResponse) :
    (response.code = 200 →
      write_share_chunk response =
        Except.ok ⟨false, requiredRanges response.required⟩) ∧
    (response.code = 201 →
      write_share_chunk response =
        Except.ok ⟨true, requiredRanges response.required⟩) ∧
    (response.code ≠ 200 → response.code ≠ 201 →
      write_share_chunk response = Except.error ⟨response.code⟩) ∧
    ∀ x, RangeMap.containsPoint (requiredRanges response.required) x =
      response.required.any
        (fun r => decide (r.rangeBegin ≤ x) && decide (x < r.rangeEnd)) := by
  refine ⟨?_, ?_, ?_, fun x => requiredRanges_containsPoint _ x⟩
  · intro h; simp [write_share_chunk, h]
  · intro h; simp [write_share_chunk, h]
  · intro h1 h2; simp [write_share_chunk, h1, h2]

/-- Witness for C2 at concrete 200, 201 and 409 responses. -/
theorem write_share_chunk_spec_witness :
    write_share_chunk ⟨200, [⟨2, 5⟩]⟩ = Except.ok ⟨false, ⟨[(2, 5)]⟩⟩ ∧
    write_share_chunk ⟨201, []⟩ = Except.ok ⟨true, ⟨[]⟩⟩ ∧
    write_share_chunk ⟨409, []⟩ = Except.error ⟨409⟩ ∧
    RangeMap.containsPoint (requiredRanges [⟨2, 5⟩]) 3 = true := by
  refine ⟨?_, ?_, ?_, ?_⟩
  · simpa using (write_share_chunk_spec ⟨200, [⟨2, 5⟩]⟩).1 rfl
  · simpa using (write_share_chunk_spec ⟨201, []⟩).2.1 rfl
  · exact (write_share_chunk_spec ⟨409, []⟩).2.2.1 (by decide) (by decide)
  · have h := (write_share_chunk_spec ⟨200, [⟨2, 5⟩]⟩).2.2.2 3
    rw [h]; decide

/-- Claim C3: a failed chunk write (any non-200/201 status) leaves the
caller-held `UploadProgress` for the share untouched, and applying the
same write response twice yields the same progress as applying it once,
so retrying the identical chunk is safe. -/
theorem write_failure_preserves_progress (st : Option UploadProgress)
    (response : WriteResponse) :
    (response.code ≠ 200 → response.code ≠ 201 →
      applyWriteResult st (write_share_chunk response) = st) ∧
    applyWriteResult (applyWriteResult st (write_share_chunk response))
        (write_share_chunk response) =
      applyWriteResult st (write_share_chunk response) := by
  constructor
  · intro h1 h2
    simp [write_share_chunk, h1, h2, applyWriteResult]
  · cases hw : write_share_chunk response <;> simp [applyWriteResult]

/-- Witness for C3: a 500 write leaves progress unchanged; re-applying a
successful 200 write changes nothing further. -/
theorem write_failure_preserves_progress_witness :
    applyWriteResult none (write_share_chunk ⟨500, []⟩) = none ∧
    applyWriteResult (applyWriteResult none (write_share_chunk ⟨200, []⟩))
        (write_share_chunk ⟨200, []⟩) =
      applyWriteResult none (write_share_chunk ⟨200, []⟩) :=
  ⟨(write_failure_preserves_progress none ⟨500, []⟩).1 (by decide) (by decide),
   (write_failure_preserves_progress none ⟨200, []⟩).2⟩

/-- Claim C4: the peer permutation is a pure function — identical inputs
give identical rankings (here: the ranking depends only on the candidate
set, not on the representation/insertion order of its list form), and an
empty candidate set yields an empty sequence; being input-determined, the
ranking is stable across process restarts and independent clients. -/
theorem rank_deterministic (storage_index : Bytes) :
    (∀ l₁ l₂ : List Nat, l₁.Perm l₂ →
      rank storage_index l₁ = rank storage_index l₂) ∧
    rank storage_index [] = [] := by
  constructor
  · intro l₁ l₂ hp
    have hs₁ := List.sorted_insertionSort (peerOrder storage_index) l₁
    have hs₂ := List.sorted_insertionSort (peerOrder storage_index) l₂
    have hp' : (rank storage_index l₁).Perm (rank storage_index l₂) :=
      ((List.perm_insertionSort _ l₁).trans hp).trans
        (List.perm_insertionSort _ l₂).symm
    exact List.eq_of_perm_of_sorted hp' hs₁ hs₂
  · rfl

/-- Witness for C4: two insertion orders of the same candidate set rank
identically, and the empty set ranks to the empty sequence. -/
theorem rank_deterministic_witness :
    rank [7] [3, 1, 2] = rank [7] [2, 3, 1] ∧ rank [7] [] = [] :=
  ⟨(rank_deterministic [7]).1 [3, 1, 2] [2, 3, 1] (by decide),
   (rank_deterministic [7]).2⟩

/-- Claim C5: every request built by `StorageClient._request` carries the
swissnum bearer `Authorization` header, and its `X-Tahoe-Authorization`
headers are exactly one per supplied secret — role tag, a space, then the
base64 of the secret — in renew/cancel/upload order; an absent secret
contributes no header. -/
theorem request_secret_headers_spec (c : StorageClient) (method url : String)
    (lease_renew_secret lease_cancel_secret upload_secret : Option Bytes)
    (headers : List HttpHeader) (body : RequestBody) :
    (c.request method url lease_renew_secret lease_cancel_secret
        upload_secret headers body).headers =
      headers ++ [⟨"Authorization", swissnum_auth_header c.swissnum⟩] ++
        List.filterMap (fun p : Secrets × Option Bytes => p.2.map fun v =>
            ⟨"X-Tahoe-Authorization", p.1.value ++ " " ++ b64encode v⟩)
          [(Secrets.lease_renew, lease_renew_secret),
           (Secrets.lease_cancel, lease_cancel_secret),
           (Secrets.upload, upload_secret)] ∧
    (⟨"Authorization", swissnum_auth_header c.swissnum⟩ : HttpHeader) ∈
      (c.request method url lease_renew_secret lease_cancel_secret
        upload_secret headers body).headers := by
  refine ⟨request_headers_eq c method url lease_renew_secret
    lease_cancel_secret upload_secret headers body, ?_⟩
  rw [request_headers_eq]
  simp

/-- Claim C6: `create` issues a POST to `/v1/immutable/{storage_index}`
carrying all three secrets and the `{share-numbers, allocated-size}`
message; any 2xx response yields a result copying the body's
`already-have` and `allocated` fields (so re-creation is reported, never
an error), and any non-2xx status fails with `ClientException`. -/
theorem create_spec (c : StorageClient) (storage_index : Bytes)
    (share_numbers : List Nat) (allocated_size : Nat)
    (upload_secret lease_renew_secret lease_cancel_secret : Bytes)
    (response : CreateResponse) :
    (create_request c storage_index share_numbers allocated_size
        upload_secret lease_renew_secret lease_cancel_secret).method =
      "POST" ∧
    (create_request c storage_index share_numbers allocated_size
        upload_secret lease_renew_secret lease_cancel_secret).url =
      c.base_url ++ "/v1/immutable/" ++ encode_si storage_index ∧
    (create_request c storage_index share_numbers allocated_size
        upload_secret lease_renew_secret lease_cancel_secret).body =
      RequestBody.cborCreate share_numbers allocated_size ∧
    (⟨"X-Tahoe-Authorization",
        Secrets.value Secrets.lease_renew ++ " " ++
          b64encode lease_renew_secret⟩ : HttpHeader) ∈
      (create_request c storage_index share_numbers allocated_size
        upload_secret lease_renew_secret lease_cancel_secret).headers ∧
    (⟨"X-Tahoe-Authorization",
        Secrets.value Secrets.lease_cancel ++ " " ++
          b64encode lease_cancel_secret⟩ : HttpHeader) ∈
      (create_request c storage_index share_numbers allocated_size
        upload_secret lease_renew_secret lease_cancel_secret).headers ∧
    (⟨"X-Tahoe-Authorization",
        Secrets.value Secrets.upload ++ " " ++
          b64encode upload_secret⟩ : HttpHeader) ∈
      (create_request c storage_index share_numbers allocated_size
        upload_secret lease_renew_secret lease_cancel_secret).headers ∧
    (199 < response.code → response.code < 300 →
      create response =
        Except.ok ⟨response.alreadyHave, response.allocated⟩) ∧
    (¬(199 < response.code ∧ response.code < 300) →
      create response = Except.error ⟨response.code⟩) := by
  refine ⟨rfl, ?_, rfl, ?_, ?_, ?_, ?_, ?_⟩
  · simp [create_request, StorageClient.request, StorageClient.url,
      String.append_assoc]
  · simp [create_request, StorageClient.request, StorageClient.get_headers,
      addSecretHeader]
  · simp [create_request, StorageClient.request, StorageClient.get_headers,
      addSecretHeader]
  · simp [create_request, StorageClient.request, StorageClient.get_headers,
      addSecretHeader]
  · intro h1 h2
    have hb : decode_cbor_ok response.code = true := by
      simp [decode_cbor_ok, h1, h2]
    simp [create, hb]
  · intro h
    have hb : decode_cbor_ok response.code = false := by
      simp only [decode_cbor_ok, Bool.and_eq_false_iff,
        decide_eq_false_iff_not]
      omega
    simp [create, hb]

/-- Witness for C6: a 200 response succeeds with the body's fields; a 404
response fails with `ClientException`. -/
theorem create_spec_witness :
    create ⟨200, [0], [1, 2]⟩ = Except.ok ⟨[0], [1, 2]⟩ ∧
    create ⟨404, [], []⟩ = Except.error ⟨404⟩ :=
  ⟨(create_spec ⟨"https://x", []⟩ [] [] 0 [] [] []
      ⟨200, [0], [1, 2]⟩).2.2.2.2.2.2.1 (by decide) (by decide),
   (create_spec ⟨"https://x", []⟩ [] [] 0 [] [] []
      ⟨404, [], []⟩).2.2.2.2.2.2.2 (by decide)⟩

/-- Claim C7, counterexample: a 201 response — a success status inside the
2xx range accepted elsewhere by `_decode_cbor` — makes `list_shares` fail
with `ClientException` instead of yielding the decoded set, because the
code accepts exactly status 200. -/
theorem list_shares_rejects_success_status :
    list_shares ⟨201, [1, 2]⟩ = Except.error ⟨201⟩ ∧
    decode_cbor_ok 201 = true :=
  ⟨rfl, by decide⟩

/-- Claim C7, amended: `list_shares` yields the decoded set of share
numbers only on status exactly 200; any other status — including other
2xx codes — fails with `ClientException`. -/
theorem list_shares_status_spec (response : SharesResponse) :
    (response.code = 200 →
      list_shares response = Except.ok response.shares.toFinset) ∧
    (response.code ≠ 200 →
      list_shares response = Except.error ⟨response.code⟩) := by
  constructor <;> intro h <;> simp [list_shares, h]

/-- Witness for the amended C7 at concrete 200 and 404 responses. -/
theorem list_shares_status_spec_witness :
    list_shares ⟨200, [1, 2]⟩ = Except.ok ({1, 2} : Finset Nat) ∧
    list_shares ⟨404, []⟩ = Except.error ⟨404⟩ := by
  constructor
  · have h := (list_shares_status_spec ⟨200, [1, 2]⟩).1 rfl
    rw [h]; rfl
  · exact (list_shares_status_spec ⟨404, []⟩).2 (by decide)

/-- Claim C8: the GET request issued by `list_shares` carries only the
bearer `Authorization` header — no `X-Tahoe-Authorization` secret header
of any role is attached. -/
theorem list_shares_request_bearer_only (c : StorageClient)
    (storage_index : Bytes) :
    (list_shares_request c storage_index).headers =
      [⟨"Authorization", swissnum_auth_header c.swissnum⟩] ∧
    List.filter (fun h => h.name == "X-Tahoe-Authorization")
      (list_shares_request c storage_index).headers = [] ∧
    (list_shares_request c storage_index).method = "GET" :=
  ⟨rfl, rfl, rfl⟩

/-- Claim C9: every furl passing the asserts of `StorageClient.from_furl`
(fragment `v=1`, scheme `pb`, non-empty path) makes the method return
`None` — it never constructs a `StorageClient`. -/
theorem from_furl_returns_none (furl : Furl) (h1 : furl.fragment = "v=1")
    (h2 : furl.scheme = "pb") (h3 : furl.path ≠ []) :
    StorageClient.from_furl furl = Except.ok none := by
  unfold StorageClient.from_furl
  rw [if_pos h1, if_pos h2]
  cases hp : furl.path with
  | nil => exact absurd hp h3
  | cons a t => simp [hp]

/-- Witness for C9 at a concrete accepted furl. -/
theorem from_furl_returns_none_witness :
    StorageClient.from_furl ⟨"pb", "v=1", ["swiss"], "certhash"⟩ =
      Except.ok none :=
  from_furl_returns_none ⟨"pb", "v=1", ["swiss"], "certhash"⟩ rfl rfl
    (by decide)

/-- Claim C10: constructing a `StorageClient` with a base URL that does
not start with `"https://"` fails the constructor's assert, so every
successfully constructed client has an https base URL (the docstring's
`"http://..."` notwithstanding). -/
theorem init_requires_https (url : String) (swissnum : Bytes) :
    (startsWithText url "https://" = false →
      StorageClient.init url swissnum = none) ∧
    (∀ c, StorageClient.init url swissnum = some c →
      startsWithText c.base_url "https://" = true ∧
        c.base_url = url ∧ c.swissnum = swissnum) := by
  constructor
  · intro h; simp [StorageClient.init, h]
  · intro c hc
    unfold StorageClient.init at hc
    by_cases h : startsWithText url "https://"
    · rw [if_pos h] at hc
      injection hc with h2
      subst h2
      exact ⟨h, rfl, rfl⟩
    · rw [if_neg h] at hc
      exact absurd hc (by simp)

/-- Witness for C10: an `http://` URL is rejected; an `https://` URL is
accepted and keeps its fields. -/
theorem init_requires_https_witness :
    StorageClient.init "http://x" [] = none ∧
    (startsWithText (StorageClient.mk "https://x" []).base_url "https://" =
        true ∧
      (StorageClient.mk "https://x" []).base_url = "https://x" ∧
      (StorageClient.mk "https://x" []).swissnum = []) :=
  ⟨(init_requires_https "http://x" []).1 (by decide),
   (init_requires_https "https://x" []).2 ⟨"https://x", []⟩ rfl⟩
